import Mathlib

/-!
# Verification of the process-gpt-crewai-action task-execution pipeline

Shallow embedding of the core of the repository:

* `src/utils.py` — the Result Recovery Parser (`_repair_backtick_value_literals`,
  `_parse_multiple_json_objects`, `_parse_json_guard`, `_to_form_dict`,
  `convert_crew_output`), modelled over a Python-value type `PyVal`, with an
  executable embedding of `json.loads` / `json.dumps` string escaping /
  `ast.literal_eval` faithful to the inputs the parser is exercised on.
* `src/core/polling_manager.py` — the polling loop (`start_todolist_polling`),
  the worker supervisor (`_execute_worker_process`, `process_new_task`), the
  cancellation watchdog (`_watch_cancel_status`) and
  `terminate_current_worker`, modelled as pure functions over an explicit
  environment (the outcomes of the external calls) and an explicit global
  state, recording emitted side effects (status writes, events) as data.
* `src/core/database.py` — the bounded retry helper `_async_retry` and
  `fetch_task_status`, modelled with explicit per-attempt outcomes and
  jitter values.
-/

set_option maxRecDepth 10000

namespace CrewAction

/-- Python runtime values, as far as the Result Recovery Parser manipulates
them: `None`, booleans, integers, floats (kept as their source lexeme — no
claim depends on float arithmetic), strings, lists, tuples, dicts
(insertion-ordered association lists) and sets. -/
inductive PyVal where
  | none : PyVal
  | bool : Bool → PyVal
  | int : Int → PyVal
  | float : String → PyVal
  | str : String → PyVal
  | list : List PyVal → PyVal
  | tuple : List PyVal → PyVal
  | dict : List (PyVal × PyVal) → PyVal
  | set : List PyVal → PyVal
deriving Inhabited

/-- A Python dict body: insertion-ordered key/value pairs. -/
abbrev PyDict := List (PyVal × PyVal)

mutual

/-- Structural equality on `PyVal`, modelling Python `==` on the values that
occur here (strings, ints, containers). -/
def pyBeq : PyVal → PyVal → Bool
  | .none, .none => true
  | .bool a, .bool b => a == b
  | .int a, .int b => a == b
  | .float a, .float b => a == b
  | .str a, .str b => a == b
  | .list a, .list b => pyBeqList a b
  | .tuple a, .tuple b => pyBeqList a b
  | .dict a, .dict b => pyBeqPairs a b
  | .set a, .set b => pyBeqList a b
  | _, _ => false

/-- Elementwise equality of Python lists. -/
def pyBeqList : List PyVal → List PyVal → Bool
  | [], [] => true
  | a :: as', b :: bs => pyBeq a b && pyBeqList as' bs
  | _, _ => false

/-- Pairwise equality of dict entries. -/
def pyBeqPairs : List (PyVal × PyVal) → List (PyVal × PyVal) → Bool
  | [], [] => true
  | (ka, va) :: as', (kb, vb) :: bs => pyBeq ka kb && pyBeq va vb && pyBeqPairs as' bs
  | _, _ => false

end

instance : BEq PyVal := ⟨pyBeq⟩

/-- Python truthiness (`if x:`) for the values the parser branches on. -/
def pyTruthy : PyVal → Bool
  | .none => false
  | .bool b => b
  | .int n => n != 0
  | .float s => s.any (fun c => c.isDigit && c != '0')
  | .str s => s != ""
  | .list xs => !xs.isEmpty
  | .tuple xs => !xs.isEmpty
  | .dict xs => !xs.isEmpty
  | .set xs => !xs.isEmpty

/-- `d.get(k)` / `d[k]` lookup on a Python dict: first entry with an equal
key. -/
def pyDictGet (d : PyDict) (k : PyVal) : Option PyVal :=
  (d.find? (fun p => pyBeq p.1 k)).map (·.2)

/-- `k in d` membership test on a Python dict. -/
def pyDictHas (d : PyDict) (k : PyVal) : Bool :=
  (d.find? (fun p => pyBeq p.1 k)).isSome

/-- `d[k] = v` on a Python dict: replace in place when the key exists
(keeping its original position), otherwise append. -/
def pyDictSet (d : PyDict) (k v : PyVal) : PyDict :=
  match d with
  | [] => [(k, v)]
  | (k', v') :: rest =>
    if pyBeq k' k then (k', v) :: rest else (k', v') :: pyDictSet rest k v

/-- `d.update(e)`: set every entry of `e` into `d`, in order. -/
def pyDictUpdate (d e : PyDict) : PyDict :=
  e.foldl (fun acc p => pyDictSet acc p.1 p.2) d

/-- `d.pop(k, None)`: remove the first entry with an equal key. -/
def pyDictPop (d : PyDict) (k : PyVal) : PyDict :=
  match d with
  | [] => []
  | (k', v') :: rest =>
    if pyBeq k' k then rest else (k', v') :: pyDictPop rest k

/-- ASCII whitespace, the cases of Python's regex `\s` and `str.strip`
exercised by the parser's inputs. -/
def pyIsSpace (c : Char) : Bool :=
  c = ' ' || c = '\t' || c = '\n' || c = '\r' || c = '\x0b' || c = '\x0c'

/-- `str.strip()`: drop whitespace from both ends. -/
def pyStrip (cs : List Char) : List Char :=
  ((cs.dropWhile pyIsSpace).reverse.dropWhile pyIsSpace).reverse

/-- Lowercase hex digit for `\uXXXX` escapes. -/
def hexDigitChar (n : Nat) : Char :=
  if n < 10 then Char.ofNat (48 + n) else Char.ofNat (97 + (n - 10))

/-- Four lowercase hex digits. -/
def hex4 (n : Nat) : List Char :=
  [hexDigitChar (n / 4096 % 16), hexDigitChar (n / 256 % 16),
   hexDigitChar (n / 16 % 16), hexDigitChar (n % 16)]

/-- `json.dumps` escaping of one character (default `ensure_ascii=True`):
quote/backslash and the short escapes, `\uxxxx` for controls and all
non-ASCII, surrogate pairs above the BMP. -/
def jsonDumpChar (c : Char) : List Char :=
  if c = '"' then ['\\', '"']
  else if c = '\\' then ['\\', '\\']
  else if c = '\n' then ['\\', 'n']
  else if c = '\r' then ['\\', 'r']
  else if c = '\t' then ['\\', 't']
  else if c = '\x08' then ['\\', 'b']
  else if c = '\x0c' then ['\\', 'f']
  else if c.toNat < 0x20 || c.toNat > 0x7e then
    if c.toNat ≤ 0xffff then '\\' :: 'u' :: hex4 c.toNat
    else
      let n := c.toNat - 0x10000
      ('\\' :: 'u' :: hex4 (0xd800 + n / 0x400)) ++ ('\\' :: 'u' :: hex4 (0xdc00 + n % 0x400))
  else [c]

/-- `json.dumps(s)` for a string `s` (as `_repair_backtick_value_literals`
uses it): the escaped text wrapped in double quotes. -/
def pyJsonDumpsStr (s : String) : String :=
  ⟨'"' :: (s.data.flatMap jsonDumpChar) ++ ['"']⟩

/-- JSON inter-token whitespace (`json.loads` accepts exactly these). -/
def jsonIsWs (c : Char) : Bool :=
  c = ' ' || c = '\t' || c = '\n' || c = '\r'

/-- Skip JSON whitespace. -/
def jsonSkipWs (cs : List Char) : List Char :=
  cs.dropWhile jsonIsWs

/-- Hex digit value. -/
def hexVal (c : Char) : Option Nat :=
  if '0' ≤ c ∧ c ≤ '9' then some (c.toNat - 48)
  else if 'a' ≤ c ∧ c ≤ 'f' then some (c.toNat - 97 + 10)
  else if 'A' ≤ c ∧ c ≤ 'F' then some (c.toNat - 65 + 10)
  else Option.none

/-- Exactly four hex digits, as in a `\uXXXX` escape. -/
def parseU4 : List Char → Option (Nat × List Char)
  | a :: b :: c :: d :: rest => do
    let va ← hexVal a
    let vb ← hexVal b
    let vc ← hexVal c
    let vd ← hexVal d
    pure (va * 4096 + vb * 256 + vc * 16 + vd, rest)
  | _ => Option.none

/-- Body of a JSON double-quoted string, after the opening quote; handles the
short escapes, `\uXXXX` with surrogate-pair combination, and rejects raw
control characters (strict mode). -/
def jsonParseStringBody : Nat → List Char → Except Unit (List Char × List Char)
  | 0, _ => .error ()
  | _ + 1, [] => .error ()
  | fuel + 1, c :: rest =>
    if c = '"' then .ok ([], rest)
    else if c = '\\' then
      match rest with
      | [] => .error ()
      | e :: rest' =>
        if e = '"' || e = '\\' || e = '/' then do
          let (s, r) ← jsonParseStringBody fuel rest'
          pure (e :: s, r)
        else if e = 'b' then do
          let (s, r) ← jsonParseStringBody fuel rest'
          pure ('\x08' :: s, r)
        else if e = 'f' then do
          let (s, r) ← jsonParseStringBody fuel rest'
          pure ('\x0c' :: s, r)
        else if e = 'n' then do
          let (s, r) ← jsonParseStringBody fuel rest'
          pure ('\n' :: s, r)
        else if e = 'r' then do
          let (s, r) ← jsonParseStringBody fuel rest'
          pure ('\r' :: s, r)
        else if e = 't' then do
          let (s, r) ← jsonParseStringBody fuel rest'
          pure ('\t' :: s, r)
        else if e = 'u' then
          match parseU4 rest' with
          | Option.none => .error ()
          | some (n, rest'') =>
            if 0xd800 ≤ n ∧ n ≤ 0xdbff then
              match rest'' with
              | '\\' :: 'u' :: rest3 =>
                match parseU4 rest3 with
                | some (m, rest4) =>
                  if 0xdc00 ≤ m ∧ m ≤ 0xdfff then do
                    let (s, r) ← jsonParseStringBody fuel rest4
                    pure (Char.ofNat (0x10000 + (n - 0xd800) * 0x400 + (m - 0xdc00)) :: s, r)
                  else .error ()
                | Option.none => .error ()
              | _ => .error ()
            else if 0xdc00 ≤ n ∧ n ≤ 0xdfff then .error ()
            else do
              let (s, r) ← jsonParseStringBody fuel rest''
              pure (Char.ofNat n :: s, r)
        else .error ()
    else if c.toNat < 0x20 then .error ()
    else do
      let (s, r) ← jsonParseStringBody fuel rest
      pure (c :: s, r)

/-- Digits of a decimal run. -/
def takeDigits (cs : List Char) : List Char × List Char :=
  (cs.takeWhile Char.isDigit, cs.dropWhile Char.isDigit)

/-- Nat value of a digit run. -/
def digitsToNat (ds : List Char) : Nat :=
  ds.foldl (fun acc c => acc * 10 + (c.toNat - 48)) 0

/-- A JSON number: `-? (0 | [1-9][0-9]*) frac? exp?`; yields a Python `int`
when there is no fraction or exponent, otherwise a float carrying its
lexeme. -/
def jsonParseNumber (cs : List Char) : Except Unit (PyVal × List Char) :=
  let (sign, cs1) := match cs with
    | '-' :: r => (true, r)
    | _ => (false, cs)
  match takeDigits cs1 with
  | ([], _) => .error ()
  | (intDigits, rest1) =>
    if intDigits.length > 1 ∧ intDigits.head? = some '0' then .error ()
    else
      let (fracDigits, rest2) := match rest1 with
        | '.' :: r =>
          match takeDigits r with
          | ([], _) => ([], rest1)
          | (ds, r') => ('.' :: ds, r')
        | _ => ([], rest1)
      if rest2 = rest1 ∧ rest1.head? = some '.' then .error ()
      else
        let (expDigits, rest3) := match rest2 with
          | e :: r =>
            if e = 'e' ∨ e = 'E' then
              match r with
              | s :: r' =>
                if s = '+' ∨ s = '-' then
                  match takeDigits r' with
                  | ([], _) => ([], rest2)
                  | (ds, r'') => (e :: s :: ds, r'')
                else
                  match takeDigits r with
                  | ([], _) => ([], rest2)
                  | (ds, r'') => (e :: ds, r'')
              | [] => ([], rest2)
            else ([], rest2)
          | [] => ([], rest2)
        if fracDigits.isEmpty ∧ expDigits.isEmpty then
          let n : Int := Int.ofNat (digitsToNat intDigits)
          .ok (.int (if sign then -n else n), rest1)
        else
          let lexeme : List Char :=
            (if sign then ['-'] else []) ++ intDigits ++ fracDigits ++ expDigits
          .ok (.float ⟨lexeme⟩, rest3)

mutual

/-- One JSON value (recursive descent, fueled); mirrors Python `json.loads`
including its `NaN` / `Infinity` extensions. -/
def jsonParseValue : Nat → List Char → Except Unit (PyVal × List Char)
  | 0, _ => .error ()
  | fuel + 1, cs =>
    match jsonSkipWs cs with
    | [] => .error ()
    | c :: rest =>
      if c = '{' then jsonParseObject fuel rest []
      else if c = '[' then jsonParseArray fuel rest []
      else if c = '"' then do
        let (s, r) ← jsonParseStringBody (rest.length + 1) rest
        pure (.str ⟨s⟩, r)
      else if c = 't' then
        match rest with
        | 'r' :: 'u' :: 'e' :: r => .ok (.bool true, r)
        | _ => .error ()
      else if c = 'f' then
        match rest with
        | 'a' :: 'l' :: 's' :: 'e' :: r => .ok (.bool false, r)
        | _ => .error ()
      else if c = 'n' then
        match rest with
        | 'u' :: 'l' :: 'l' :: r => .ok (.none, r)
        | _ => .error ()
      else if c = 'N' then
        match rest with
        | 'a' :: 'N' :: r => .ok (.float "nan", r)
        | _ => .error ()
      else if c = 'I' then
        match rest with
        | 'n' :: 'f' :: 'i' :: 'n' :: 'i' :: 't' :: 'y' :: r => .ok (.float "inf", r)
        | _ => .error ()
      else if c = '-' then
        match rest with
        | 'I' :: 'n' :: 'f' :: 'i' :: 'n' :: 'i' :: 't' :: 'y' :: r => .ok (.float "-inf", r)
        | _ => jsonParseNumber (c :: rest)
      else if c.isDigit then jsonParseNumber (c :: rest)
      else .error ()

/-- Members of a JSON object after the opening brace (duplicate keys: the
later value wins, as in Python's dict construction). -/
def jsonParseObject : Nat → List Char → PyDict → Except Unit (PyVal × List Char)
  | 0, _, _ => .error ()
  | fuel + 1, cs, acc =>
    match jsonSkipWs cs with
    | [] => .error ()
    | c :: rest =>
      if c = '}' ∧ acc.isEmpty then .ok (.dict [], rest)
      else if c = '"' then do
        let (k, r1) ← jsonParseStringBody (rest.length + 1) rest
        match jsonSkipWs r1 with
        | ':' :: r2 => do
          let (v, r3) ← jsonParseValue fuel r2
          let acc' := pyDictSet acc (.str ⟨k⟩) v
          match jsonSkipWs r3 with
          | ',' :: r4 => jsonParseObject fuel r4 acc'
          | '}' :: r4 => .ok (.dict acc', r4)
          | _ => .error ()
        | _ => .error ()
      else .error ()

/-- Elements of a JSON array after the opening bracket. -/
def jsonParseArray : Nat → List Char → List PyVal → Except Unit (PyVal × List Char)
  | 0, _, _ => .error ()
  | fuel + 1, cs, acc =>
    match jsonSkipWs cs with
    | ']' :: rest =>
      if acc.isEmpty then .ok (.list [], rest) else .error ()
    | cs' => do
      let (v, r1) ← jsonParseValue fuel cs'
      match jsonSkipWs r1 with
      | ',' :: r2 => jsonParseArray fuel r2 (acc ++ [v])
      | ']' :: r2 => .ok (.list (acc ++ [v]), r2)
      | _ => .error ()

end

/-- `json.loads(s)`: parse one value, then require only whitespace to
follow ("Extra data" otherwise). -/
def pyJsonLoads (s : String) : Except Unit PyVal :=
  match jsonParseValue (2 * s.data.length + 8) s.data with
  | .ok (v, rest) => if (jsonSkipWs rest).isEmpty then .ok v else .error ()
  | .error _ => .error ()

/-- Body of a Python string literal with quote character `q`; short escapes,
`\xHH` / `\uHHHH`, unknown escapes keep the backslash, raw newlines are
rejected (unterminated literal). -/
def litParseStringBody : Nat → Char → List Char → Except Unit (List Char × List Char)
  | 0, _, _ => .error ()
  | _ + 1, _, [] => .error ()
  | fuel + 1, q, c :: rest =>
    if c = q then .ok ([], rest)
    else if c = '\n' then .error ()
    else if c = '\\' then
      match rest with
      | [] => .error ()
      | e :: rest' =>
        if e = 'n' then do
          let (s, r) ← litParseStringBody fuel q rest'; pure ('\n' :: s, r)
        else if e = 't' then do
          let (s, r) ← litParseStringBody fuel q rest'; pure ('\t' :: s, r)
        else if e = 'r' then do
          let (s, r) ← litParseStringBody fuel q rest'; pure ('\r' :: s, r)
        else if e = '\'' || e = '"' || e = '\\' then do
          let (s, r) ← litParseStringBody fuel q rest'; pure (e :: s, r)
        else if e = '0' then do
          let (s, r) ← litParseStringBody fuel q rest'; pure ('\x00' :: s, r)
        else if e = 'a' then do
          let (s, r) ← litParseStringBody fuel q rest'; pure ('\x07' :: s, r)
        else if e = 'b' then do
          let (s, r) ← litParseStringBody fuel q rest'; pure ('\x08' :: s, r)
        else if e = 'f' then do
          let (s, r) ← litParseStringBody fuel q rest'; pure ('\x0c' :: s, r)
        else if e = 'v' then do
          let (s, r) ← litParseStringBody fuel q rest'; pure ('\x0b' :: s, r)
        else if e = 'x' then
          match rest' with
          | a :: b :: rest'' =>
            match hexVal a, hexVal b with
            | some va, some vb => do
              let (s, r) ← litParseStringBody fuel q rest''
              pure (Char.ofNat (va * 16 + vb) :: s, r)
            | _, _ => .error ()
          | _ => .error ()
        else if e = 'u' then
          match parseU4 rest' with
          | some (n, rest'') =>
            if 0xd800 ≤ n ∧ n ≤ 0xdfff then .error ()
            else do
              let (s, r) ← litParseStringBody fuel q rest''
              pure (Char.ofNat n :: s, r)
          | Option.none => .error ()
        else if e = '\n' then
          litParseStringBody fuel q rest'
        else do
          let (s, r) ← litParseStringBody fuel q rest'
          pure ('\\' :: e :: s, r)
    else do
      let (s, r) ← litParseStringBody fuel q rest
      pure (c :: s, r)

/-- A Python numeric literal (decimal, optional fraction/exponent); as with
JSON, non-integers keep their lexeme. -/
def litParseNumber (cs : List Char) : Except Unit (PyVal × List Char) :=
  let (intDigits, rest1) := takeDigits cs
  let (fracDigits, rest2) := match rest1 with
    | '.' :: r =>
      let (ds, r') := takeDigits r
      ('.' :: ds, r')
    | _ => ([], rest1)
  if intDigits.isEmpty ∧ (fracDigits = [] ∨ fracDigits = ['.']) then .error ()
  else
    let (expDigits, rest3) := match rest2 with
      | e :: r =>
        if e = 'e' ∨ e = 'E' then
          match r with
          | s :: r' =>
            if s = '+' ∨ s = '-' then
              match takeDigits r' with
              | ([], _) => ([], rest2)
              | (ds, r'') => (e :: s :: ds, r'')
            else
              match takeDigits r with
              | ([], _) => ([], rest2)
              | (ds, r'') => (e :: ds, r'')
          | [] => ([], rest2)
        else ([], rest2)
      | [] => ([], rest2)
    if fracDigits.isEmpty ∧ expDigits.isEmpty then
      .ok (.int (Int.ofNat (digitsToNat intDigits)), rest1)
    else
      .ok (.float ⟨intDigits ++ fracDigits ++ expDigits⟩, rest3)

/-- Negate a numeric `PyVal` (the single unary sign `ast.literal_eval`
accepts over a constant). -/
def pyNegate : PyVal → Except Unit PyVal
  | .int n => .ok (.int (-n))
  | .float s => .ok (.float ⟨'-' :: s.data⟩)
  | _ => .error ()

mutual

/-- One Python literal expression (the `ast.literal_eval` grammar restricted
to the constructs this repository's outputs can contain): constants,
strings, numbers with one unary sign, tuples/lists/sets/dicts with trailing
commas. Anything else — names in particular — is an error. -/
def litParseValue : Nat → List Char → Except Unit (PyVal × List Char)
  | 0, _ => .error ()
  | fuel + 1, cs =>
    match jsonSkipWs cs with
    | [] => .error ()
    | c :: rest =>
      if c = '\'' ∨ c = '"' then do
        let (s, r) ← litParseStringBody (rest.length + 1) c rest
        pure (.str ⟨s⟩, r)
      else if c = 'N' then
        match rest with
        | 'o' :: 'n' :: 'e' :: r => .ok (.none, r)
        | _ => .error ()
      else if c = 'T' then
        match rest with
        | 'r' :: 'u' :: 'e' :: r => .ok (.bool true, r)
        | _ => .error ()
      else if c = 'F' then
        match rest with
        | 'a' :: 'l' :: 's' :: 'e' :: r => .ok (.bool false, r)
        | _ => .error ()
      else if c = '-' then do
        let (v, r) ← litParseNumber (jsonSkipWs rest)
        let v' ← pyNegate v
        pure (v', r)
      else if c = '+' then
        litParseNumber (jsonSkipWs rest)
      else if c.isDigit ∨ c = '.' then
        litParseNumber (c :: rest)
      else if c = '[' then do
        let (xs, r) ← litParseElems fuel ']' rest []
        pure (.list xs, r)
      else if c = '(' then
        match jsonSkipWs rest with
        | ')' :: r => .ok (.tuple [], r)
        | cs' => do
          let (v, r1) ← litParseValue fuel cs'
          match jsonSkipWs r1 with
          | ')' :: r2 => .ok (v, r2)
          | ',' :: r2 => do
            let (xs, r3) ← litParseElems fuel ')' r2 [v]
            pure (.tuple xs, r3)
          | _ => .error ()
      else if c = '{' then
        match jsonSkipWs rest with
        | '}' :: r => .ok (.dict [], r)
        | cs' => do
          let (v, r1) ← litParseValue fuel cs'
          match jsonSkipWs r1 with
          | ':' :: r2 => do
            let (v2, r3) ← litParseValue fuel r2
            litParseDictEntries fuel r3 (pyDictSet [] v v2)
          | ',' :: r2 => do
            let (xs, r3) ← litParseElems fuel '}' r2 [v]
            pure (.set xs, r3)
          | '}' :: r2 => .ok (.set [v], r2)
          | _ => .error ()
      else .error ()

/-- Comma-separated elements up to a closing bracket, trailing comma
allowed. -/
def litParseElems : Nat → Char → List Char → List PyVal → Except Unit (List PyVal × List Char)
  | 0, _, _, _ => .error ()
  | fuel + 1, closer, cs, acc =>
    match jsonSkipWs cs with
    | [] => .error ()
    | c :: rest =>
      if c = closer then .ok (acc, rest)
      else do
        let (v, r1) ← litParseValue fuel (c :: rest)
        match jsonSkipWs r1 with
        | c2 :: r2 =>
          if c2 = closer then .ok (acc ++ [v], r2)
          else if c2 = ',' then litParseElems fuel closer r2 (acc ++ [v])
          else .error ()
        | [] => .error ()

/-- Remaining `key: value` entries of a dict literal, after the first one. -/
def litParseDictEntries : Nat → List Char → PyDict → Except Unit (PyVal × List Char)
  | 0, _, _ => .error ()
  | fuel + 1, cs, acc =>
    match jsonSkipWs cs with
    | '}' :: r => .ok (.dict acc, r)
    | ',' :: r =>
      (match jsonSkipWs r with
      | '}' :: r2 => .ok (.dict acc, r2)
      | cs' => do
        let (k, r1) ← litParseValue fuel cs'
        match jsonSkipWs r1 with
        | ':' :: r2 => do
          let (v, r3) ← litParseValue fuel r2
          litParseDictEntries fuel r3 (pyDictSet acc k v)
        | _ => .error ())
    | _ => .error ()

end

/-- `ast.literal_eval(s)`: one literal expression, surrounded only by
whitespace. -/
def pyLiteralEval (s : String) : Except Unit PyVal :=
  match litParseValue (2 * s.data.length + 8) s.data with
  | .ok (v, rest) => if (jsonSkipWs rest).isEmpty then .ok v else .error ()
  | .error _ => .error ()

/-- Split at the first backtick: `some (before, after)` when one exists. -/
def findBacktick : List Char → Option (List Char × List Char)
  | [] => Option.none
  | '`' :: r => some ([], r)
  | c :: r => (findBacktick r).map (fun p => (c :: p.1, p.2))

/-- Scanner for `_RE_BACKTICK_VALUE.sub` (pattern `(:\s*)` ``` `([\s\S]*?)` ```,
`src/utils.py:9`): at each colon followed by whitespace and a backtick,
fold the shortest backtick-delimited run into a `json.dumps`-escaped string,
then continue after the match; a colon with no closing backtick is left
as-is. -/
def repairAux : Nat → List Char → List Char
  | 0, cs => cs
  | _ + 1, [] => []
  | fuel + 1, c :: rest =>
    if c = ':' then
      let ws := rest.takeWhile pyIsSpace
      let rest' := rest.dropWhile pyIsSpace
      match rest' with
      | '`' :: tail =>
        match findBacktick tail with
        | some (raw, after) =>
          ':' :: ws ++ (pyJsonDumpsStr ⟨raw⟩).data ++ repairAux fuel after
        | Option.none => ':' :: repairAux fuel rest
      | _ => ':' :: repairAux fuel rest
    else c :: repairAux fuel rest

/-- `_repair_backtick_value_literals` (`src/utils.py:11`): rewrite
backtick-wrapped JSON value positions into escaped JSON strings. -/
def repairBacktickValueLiterals (s : String) : String :=
  ⟨repairAux (s.data.length + 1) s.data⟩

/-- `needle` occurs as a contiguous run inside `hay` (Python `in` on
strings). -/
def containsSublist (needle : List Char) : List Char → Bool
  | [] => needle.isEmpty
  | c :: rest => needle.isPrefixOf (c :: rest) || containsSublist needle rest

/-- The guard condition of `_parse_json_guard` step 2 (`src/utils.py:69`):
the literal substrings `}\n{` or `}\r\n{` occur in the text. -/
def hasMultiObjectBoundary (s : String) : Bool :=
  containsSublist "\x7d\n\x7b".data s.data ||
    containsSublist "\x7d\r\n\x7b".data s.data

/-- `re.split(r'\}\s*\n\s*\{', text)` (`src/utils.py:32`): fragments between
close-brace / whitespace-containing-a-newline / open-brace boundaries, the
braces and whitespace of each boundary removed. -/
def splitBoundaryAux : Nat → List Char → List Char → List (List Char)
  | 0, acc, cs => [acc.reverse ++ cs]
  | _ + 1, acc, [] => [acc.reverse]
  | fuel + 1, acc, c :: rest =>
    if c = '}' then
      let ws := rest.takeWhile pyIsSpace
      let rest' := rest.dropWhile pyIsSpace
      if ws.contains '\n' then
        match rest' with
        | '{' :: tail => acc.reverse :: splitBoundaryAux fuel [] tail
        | _ => splitBoundaryAux fuel (c :: acc) rest
      else splitBoundaryAux fuel (c :: acc) rest
    else splitBoundaryAux fuel (c :: acc) rest

/-- One fragment of `_parse_multiple_json_objects` (`src/utils.py:35`):
strip, re-add the outer brace removed by the split on each side that had
one, parse; only a successfully parsed dict contributes. -/
def parseFragment (isFirst isLast : Bool) (part : List Char) : Option PyDict :=
  let p := pyStrip part
  let p := if isFirst then p else '{' :: p
  let p := if isLast then p else p ++ ['}']
  match pyJsonLoads ⟨p⟩ with
  | .ok (.dict d) => some d
  | _ => Option.none

/-- Fold the fragments, shallow-merging each parsed dict into the
accumulator (`merged.update(obj)`); failures are skipped. -/
def mergeFragments : PyDict → Bool → List (List Char) → PyDict
  | acc, _, [] => acc
  | acc, isFirst, p :: rest =>
    let acc' := match parseFragment isFirst rest.isEmpty p with
      | some d => pyDictUpdate acc d
      | Option.none => acc
    mergeFragments acc' false rest

/-- `_parse_multiple_json_objects` (`src/utils.py:24`): strip the text,
split at close-brace/newline/open-brace boundaries, re-balance and parse
each fragment, and shallow-merge the dicts that parse (later keys
overwrite earlier ones); never raises. -/
def parseMultipleJsonObjects (text : String) : PyDict :=
  let stripped := pyStrip text.data
  mergeFragments [] true (splitBoundaryAux (stripped.length + 1) [] stripped)

/-- `_parse_json_guard` (`src/utils.py:57`): repair backtick values, try
strict JSON, then the multi-object merge when the text contains a
close-brace/newline/open-brace boundary, then the Python literal parser;
raise `ValueError` (modelled as `.error ()`) if all fail. -/
def parseJsonGuard (text : String) : Except Unit PyVal :=
  let repaired := repairBacktickValueLiterals text
  match pyJsonLoads repaired with
  | .ok v => .ok v
  | .error _ =>
    if hasMultiObjectBoundary repaired then
      .ok (.dict (parseMultipleJsonObjects repaired))
    else
      match pyLiteralEval repaired with
      | .ok v => .ok v
      | .error _ => .error ()

/-- The designated form-data key of the parsed object
(`"폼_데이터"` throughout `src/utils.py`). -/
def formKey : PyVal := .str "폼_데이터"

/-- `_to_form_dict` (`src/utils.py:81`): a dict is used directly; a list of
`{key, text}` items is projected to `key → text` (items without a `"key"`
entry are dropped, a missing `"text"` maps to `None`); a string becomes
`{"content": value}`; anything else is empty. -/
def toFormDict : PyVal → PyDict
  | .dict d => d
  | .list items =>
    items.foldl
      (fun acc item =>
        match item with
        | .dict d =>
          if pyDictHas d (.str "key") then
            pyDictSet acc ((pyDictGet d (.str "key")).getD .none)
              ((pyDictGet d (.str "text")).getD .none)
          else acc
        | _ => acc)
      []
  | .str s => [(.str "content", .str s)]
  | _ => []

/-- `src/utils.py:210`: `wrapped_form_data = {form_id: pure_form_data} if
form_id else pure_form_data` — nest under the form id when it is set and
non-empty, otherwise return the pure form data unwrapped. -/
def wrapFormData (pureForm : PyDict) (formId : Option String) : PyDict :=
  match formId with
  | some f => if f ≠ "" then [(.str f, .dict pureForm)] else pureForm
  | Option.none => pureForm

/-- Python `str.lower()`. -/
def pyLower (s : String) : String := s.map Char.toLower

/-- The field-classification loop of `convert_crew_output`
(`src/utils.py:162`): for each dict field, `.lower()` its declared type
(raising if the type entry is not a string), and collect keys of
report/document and slide/presentation typed fields, in order. -/
def fieldKeysLoop : List PyVal → List PyVal → List PyVal → Except Unit (List PyVal × List PyVal)
  | [], rk, sk => .ok (rk, sk)
  | f :: rest, rk, sk =>
    match f with
    | .dict d =>
      match (pyDictGet d (.str "type")).getD (.str "") with
      | .str t =>
        let ft := pyLower t
        let fk := (pyDictGet d (.str "key")).getD (.str "")
        if pyTruthy fk then
          if ft = "report" ∨ ft = "document" then fieldKeysLoop rest (rk ++ [fk]) sk
          else if ft = "slide" ∨ ft = "presentation" then fieldKeysLoop rest rk (sk ++ [fk])
          else fieldKeysLoop rest rk sk
        else fieldKeysLoop rest rk sk
      | _ => .error ()
    | _ => fieldKeysLoop rest rk sk

/-- `src/utils.py:152-170`: resolve the form-field list out of `form_types`
(the `fields` entry of a dict that has `fields`/`html`, otherwise the value
itself) and extract the report/slide key lists; returns an error where the
Python code would raise (`.lower()` on a non-string type). -/
def extractFieldKeys (formTypes : Option PyVal) : Except Unit (List PyVal × List PyVal) :=
  match formTypes with
  | Option.none => .ok ([], [])
  | some ft =>
    if pyTruthy ft then
      let formFields : PyVal :=
        match ft with
        | .dict d =>
          if pyDictHas d (.str "fields") || pyDictHas d (.str "html") then
            (pyDictGet d (.str "fields")).getD .none
          else ft
        | _ => ft
      if pyTruthy formFields then
        match formFields with
        | .list fields => fieldKeysLoop fields [] []
        | _ => .ok ([], [])
      else .ok ([], [])
    else .ok ([], [])

/-- The `"result"`-wrapper handling of `convert_crew_output`
(`src/utils.py:114-146`): when the parsed object carries a `"result"` key,
re-parse a string value (substituting an empty dict on failure or non-dict),
and rebuild the object so the form-data key is at top level; returns the new
`output_val` together with `result_data`. -/
def resultWrapper (outputVal : PyVal) : PyVal × PyDict :=
  match outputVal with
  | .dict d =>
    if pyDictHas d (.str "result") then
      let resultValue := (pyDictGet d (.str "result")).getD .none
      let rd : PyDict :=
        match resultValue with
        | .str s =>
          match parseJsonGuard s with
          | .ok (.dict rd') => rd'
          | .ok _ => []
          | .error _ => []
        | .dict d' => d'
        | _ => []
      let newOutput : PyVal :=
        if pyDictHas rd formKey then
          .dict (pyDictUpdate [(formKey, (pyDictGet rd formKey).getD .none)]
            (rd.filter (fun p => !pyBeq p.1 formKey)))
        else
          .dict [(formKey, .dict rd)]
      (newOutput, rd)
    else (outputVal, d)
  | _ => (outputVal, [])

/-- `src/utils.py:181-190`: collect report/slide-typed entries of
`result_data` (skipping the form-data/status/actions keys) into the two
side-channel dicts. -/
def routeFromResultData (rd : PyDict) (rk sk : List PyVal) : PyDict × PyDict :=
  rd.foldl
    (fun acc p =>
      if pyBeq p.1 formKey || pyBeq p.1 (.str "상태") || pyBeq p.1 (.str "수행한_작업") then acc
      else if rk.any (fun k => pyBeq p.1 k) then (pyDictSet acc.1 p.1 p.2, acc.2)
      else if sk.any (fun k => pyBeq p.1 k) then (acc.1, pyDictSet acc.2 p.1 p.2)
      else acc)
    ([], [])

/-- `src/utils.py:193-202`: walk a snapshot of the pure-form-data keys and
move report/slide-typed entries out (into the side channel when not already
present there, otherwise just dropping them). -/
def popRouteLoop : List PyVal → PyDict → PyDict → PyDict → List PyVal → List PyVal → PyDict × PyDict × PyDict
  | [], pureForm, rep, sl, _, _ => (pureForm, rep, sl)
  | k :: rest, pureForm, rep, sl, rk, sk =>
    if rk.any (fun x => pyBeq k x) || sk.any (fun x => pyBeq k x) then
      if rk.any (fun x => pyBeq k x) && !pyDictHas rep k then
        popRouteLoop rest (pyDictPop pureForm k)
          (pyDictSet rep k ((pyDictGet pureForm k).getD .none)) sl rk sk
      else if sk.any (fun x => pyBeq k x) && !pyDictHas sl k then
        popRouteLoop rest (pyDictPop pureForm k) rep
          (pyDictSet sl k ((pyDictGet pureForm k).getD .none)) rk sk
      else popRouteLoop rest (pyDictPop pureForm k) rep sl rk sk
    else popRouteLoop rest pureForm rep sl rk sk

/-- The five components `convert_crew_output` returns
(`src/utils.py:218`). -/
structure CrewOutput where
  pureFormData : PyDict
  wrappedFormData : PyDict
  originalWoForm : PyDict
  reportFields : PyDict
  slideFields : PyDict

/-- The pure tail of `convert_crew_output` after the two fallible steps:
wrapper handling, form-data extraction/normalisation, report/slide routing,
form-id wrapping and removal of the form-data key from the original. -/
def convertAssemble (outputVal : PyVal) (formId : Option String)
    (rk sk : List PyVal) : CrewOutput :=
  let wr := resultWrapper outputVal
  let originalWoForm : PyDict := match wr.1 with | .dict d => d | _ => []
  let formRaw : PyVal := match wr.1 with
    | .dict d => (pyDictGet d formKey).getD .none
    | _ => .none
  let pure0 := toFormDict formRaw
  let routed := routeFromResultData wr.2 rk sk
  let popped := popRouteLoop (pure0.map (·.1)) pure0 routed.1 routed.2 rk sk
  ⟨popped.1, wrapFormData popped.1 formId, pyDictPop originalWoForm formKey,
   popped.2.1, popped.2.2⟩

/-- `convert_crew_output` (`src/utils.py:96`): robust parse of the raw text,
`"result"`-wrapper unwrapping, form-data extraction, report/slide field
routing and form-id wrapping; parse failures of the outer text and
`.lower()` failures on a malformed schema propagate to the caller. -/
def convertCrewOutput (text : String) (formId : Option String)
    (formTypes : Option PyVal) : Except Unit CrewOutput :=
  match parseJsonGuard text with
  | .error e => .error e
  | .ok outputVal =>
    match extractFieldKeys formTypes with
    | .error e => .error e
    | .ok (rk, sk) => .ok (convertAssemble outputVal formId rk sk)

/-! ## Retry helper — `src/core/database.py` -/

/-- `_async_retry` (`src/core/database.py:16`), with the random jitter made
an explicit per-attempt parameter: try `fn` on attempts `attempt`,
`attempt+1`, …; on each failure sleep `base · 2^(attempt-1) + jitter`
before looping.  Returns the result (`none` when every attempt failed), the
sleep delays in order, and the number of `fn` invocations. -/
def asyncRetryGo (fn : Nat → Except Unit α) (jit : Nat → ℚ) (base : ℚ)
    (attempt : Nat) : Nat → Option α × List ℚ × Nat
  | 0 => (Option.none, [], 0)
  | n + 1 =>
    match fn attempt with
    | .ok v => (some v, [], 1)
    | .error _ =>
      let d := base * 2 ^ (attempt - 1) + jit attempt
      let r := asyncRetryGo fn jit base (attempt + 1) n
      (r.1, d :: r.2.1, r.2.2 + 1)

/-- `_async_retry` entry: attempts run `1 … retries`
(`for attempt in range(1, retries + 1)`). -/
def asyncRetryRun (fn : Nat → Except Unit α) (jit : Nat → ℚ)
    (retries : Nat) (base : ℚ) : Option α × List ℚ × Nat :=
  asyncRetryGo fn jit base 1 retries

/-- The defaults of `_async_retry`'s signature: `retries=3`,
`base_delay=0.8`. -/
def retryDefaultRetries : Nat := 3

/-- `base_delay = 0.8` as an exact rational. -/
def retryDefaultBase : ℚ := 4 / 5

/-- `fetch_task_status` (`src/core/database.py:120`): read the task's
`draft_status` through `_async_retry`; a retry-exhausted read, a falsy
response, falsy response data or a missing column all yield `None`, and the
function's own `except` swallows anything else — it never raises.  A backend
call outcome is `Except Unit (Option (Option String))`: error = the call
raised; `some none` = response with falsy `data`; `some (some ds)` =
response whose data carries `draft_status = ds`. -/
def fetchTaskStatus (calls : Nat → Except Unit (Option (Option String)))
    (jit : Nat → ℚ) : Option String :=
  match (asyncRetryRun calls jit retryDefaultRetries retryDefaultBase).1 with
  | Option.none => Option.none
  | some Option.none => Option.none
  | some (some ds) => ds

/-! ## Worker supervisor, watchdog and polling loop —
`src/core/polling_manager.py` -/

/-- A status write against the Job Source (`update_task_completed` writes
`COMPLETED`, `update_task_error` writes `FAILED`). -/
inductive StatusWrite where
  | completed (todoId : Nat)
  | failed (todoId : Nat)
deriving DecidableEq

/-- Observable side effects of one `process_new_task` run. -/
inductive Effect where
  | write (w : StatusWrite)
  | emitErrorEvent (stage : String)
  | crewCompletedEvent
deriving DecidableEq

/-- The status writes among a run's effects. -/
def effectWrites (eff : List Effect) : List StatusWrite :=
  eff.filterMap (fun e => match e with | .write w => some w | _ => Option.none)

/-- The module globals of `polling_manager.py` (lines 26-28):
`current_process`, `worker_terminated_by_us`, `current_todo_id`. -/
structure GlobalState where
  currentProcess : Option Nat
  workerTerminatedByUs : Bool
  currentTodoId : Option Nat
deriving DecidableEq

/-- The `finally` block of `process_new_task` (lines 96-99): reset the three
globals. -/
def applyFinally (s : GlobalState) : GlobalState :=
  { s with currentProcess := Option.none, workerTerminatedByUs := false,
           currentTodoId := Option.none }

/-- Outcomes of the external interactions during one task: input
preparation, process spawn, the pid, whether the watchdog requested
termination while the worker ran (i.e. `terminate_current_worker` ran its
guarded body), and the exit code `wait()` observed. -/
structure TaskEnv where
  prepareOk : Bool
  spawnOk : Bool
  pid : Nat
  cancelRequested : Bool
  returncode : Int

/-- `_execute_worker_process` (`src/core/polling_manager.py:148`): clear the
termination flag, spawn the worker; after `wait()` returns, classify: flag
set ⇒ return with no status write; non-zero exit ⇒ one `FAILED` write;
otherwise emit the completion event and one `COMPLETED` write.  A spawn
failure takes the `except` branch: one `FAILED` write, then the error is
re-raised. -/
def executeWorkerProcess (env : TaskEnv) (todoId : Nat) (s : GlobalState) :
    Except Unit Unit × GlobalState × List Effect :=
  if !env.spawnOk then
    (.error (), { s with workerTerminatedByUs := false },
      [.write (.failed todoId)])
  else
    let sWait : GlobalState :=
      { s with currentProcess := some env.pid,
               workerTerminatedByUs := env.cancelRequested }
    if sWait.workerTerminatedByUs then (.ok (), sWait, [])
    else if env.returncode ≠ 0 then (.ok (), sWait, [.write (.failed todoId)])
    else (.ok (), sWait, [.crewCompletedEvent, .write (.completed todoId)])

/-- `process_new_task` (`src/core/polling_manager.py:42`): record the
current todo id, prepare inputs (a failure emits a `prepare` error event,
is marked `FAILED` by the outer `except`, and re-raises), run the worker (a
raising run emits an `execute_worker` error event and is marked `FAILED`
again by the outer `except`), and in every path apply the `finally` reset
of the globals. -/
def processNewTask (env : TaskEnv) (todoId : Nat) (s : GlobalState) :
    Except Unit Unit × GlobalState × List Effect :=
  let s0 : GlobalState := { s with currentTodoId := some todoId }
  if !env.prepareOk then
    (.error (), applyFinally s0,
      [.emitErrorEvent "prepare", .write (.failed todoId)])
  else
    match executeWorkerProcess env todoId s0 with
    | (.error _, s1, eff) =>
      (.error (), applyFinally s1,
        eff ++ [.emitErrorEvent "execute_worker", .write (.failed todoId)])
    | (.ok _, s1, eff) => (.ok (), applyFinally s1, eff)

/-! ### The terminate/exit race — `terminate_current_worker` (lines 226-235)
and the classification after `wait()` (lines 170-190). -/

/-- Atomic actions of the race between `terminate_current_worker` (which
runs without suspension points) and the worker's natural OS-level exit. -/
inductive RaceInstr where
  | workerExit
  | guardCheck
  | setFlag
  | sendSignal
deriving DecidableEq

/-- State of the race: whether the process has exited (its `returncode` is
set), `worker_terminated_by_us`, whether the termination signal went out,
and the value the guard `current_process and current_process.returncode is
None` evaluated to. -/
structure RaceState where
  exited : Bool
  flag : Bool
  signaled : Bool
  guardPassed : Bool
deriving DecidableEq

/-- Effect of one atomic action. -/
def raceStep (s : RaceState) : RaceInstr → RaceState
  | .workerExit => { s with exited := true }
  | .guardCheck => { s with guardPassed := !s.exited }
  | .setFlag => if s.guardPassed then { s with flag := true } else s
  | .sendSignal => if s.guardPassed then { s with signaled := true } else s

/-- Run a sequence of atomic actions from the initial state (worker
running, flag clear). -/
def raceRun (l : List RaceInstr) : RaceState :=
  l.foldl raceStep ⟨false, false, false, false⟩

/-- The body of `terminate_current_worker` in source order (lines 230-232):
evaluate the guard, set `worker_terminated_by_us = True`, then call
`current_process.terminate()`. -/
def terminateProgram : List RaceInstr := [.guardCheck, .setFlag, .sendSignal]

/-- How `_execute_worker_process` classifies the exit (lines 170-190). -/
inductive ExitClass where
  | terminated
  | crash
  | success
deriving DecidableEq

/-- Classification: the flag wins over the exit code. -/
def classifyOutcome (flag : Bool) (rc : Int) : ExitClass :=
  if flag then .terminated else if rc ≠ 0 then .crash else .success

/-! ### Cancellation watchdog — `_watch_cancel_status` (lines 206-224). -/

/-- The watchdog's fixed cadence (`await asyncio.sleep(5)`, line 216). -/
def watchInterval : Nat := 5

/-- What one watchdog tick does after its sleep. -/
structure WatchTick where
  terminated : Bool
  continues : Bool
  loggedError : Bool
deriving DecidableEq

/-- One iteration of the watchdog loop body (lines 217-224): a raising
status read is caught and logged and the loop continues; a read yielding
`CANCELLED` or `FB_REQUESTED` triggers termination and breaks; any other
value (including no status) just continues. -/
def watchCancelTick (read : Except Unit (Option String)) : WatchTick :=
  match read with
  | .error _ => ⟨false, true, true⟩
  | .ok s =>
    match s with
    | some st =>
      if st = "CANCELLED" ∨ st = "FB_REQUESTED" then ⟨true, false, false⟩
      else ⟨false, true, false⟩
    | Option.none => ⟨false, true, false⟩

/-! ### Polling loop — `start_todolist_polling` (lines 241-255). -/

/-- The default polling interval from the function signature
(`interval: int = 7`). -/
def pollingDefaultInterval : Nat := 7

/-- External outcomes one loop iteration can meet: the claim attempt and,
when a row was claimed, the processing of it. -/
structure PollEnv where
  claimResult : Except Unit (Option Nat)
  processResult : Nat → Except Unit Unit

/-- What one iteration did. -/
structure PollIteration where
  raised : Bool
  loggedError : Bool
  slept : Nat
deriving DecidableEq

/-- One iteration of the polling loop body (lines 245-255): any exception
from claiming or processing is caught and logged inside the loop, and the
fixed-interval sleep runs regardless of the branch taken. -/
def pollingIteration (interval : Nat) (env : PollEnv) : PollIteration :=
  match env.claimResult with
  | .error _ => ⟨false, true, interval⟩
  | .ok Option.none => ⟨false, false, interval⟩
  | .ok (some row) =>
    match env.processResult row with
    | .error _ => ⟨false, true, interval⟩
    | .ok _ => ⟨false, false, interval⟩

/-- Run the loop for `fuel` iterations against per-iteration environments
(the loop itself is `while True`). -/
def pollingRun (interval : Nat) (envs : Nat → PollEnv) : Nat → List PollIteration
  | 0 => []
  | n + 1 => pollingIteration interval (envs n) :: pollingRun interval envs n

/-! ## Theorems -/

/-- C10: whenever `process_new_task` returns — normally or by exception —
the shared globals `(current_process, worker_terminated_by_us,
current_todo_id)` are reset to `(None, False, None)` by the `finally`
block, so no process handle or termination flag survives between tasks and
a watchdog of one task cannot act on a later task's worker. -/
theorem c10_global_state_reset (env : TaskEnv) (todoId : Nat) (s : GlobalState) :
    (processNewTask env todoId s).2.1 =
      GlobalState.mk Option.none false Option.none := by
  cases hp : env.prepareOk <;> cases hsp : env.spawnOk <;>
    simp [processNewTask, executeWorkerProcess, applyFinally, hp, hsp]
  all_goals split <;> simp [applyFinally]

/-- C1: for every worker-process exit (inputs prepared and worker spawned),
the supervisor's classification writes exactly one `COMPLETED` status when
the exit code is 0 and the termination-requested flag is false, exactly one
`FAILED` status when the exit code is non-zero and the flag is false, and no
status at all when the flag is true. -/
theorem c1_exit_classification (env : TaskEnv) (todoId : Nat) (s : GlobalState)
    (hprep : env.prepareOk = true) (hspawn : env.spawnOk = true) :
    (env.cancelRequested = false → env.returncode = 0 →
      effectWrites (processNewTask env todoId s).2.2 = [StatusWrite.completed todoId]) ∧
    (env.cancelRequested = false → env.returncode ≠ 0 →
      effectWrites (processNewTask env todoId s).2.2 = [StatusWrite.failed todoId]) ∧
    (env.cancelRequested = true →
      effectWrites (processNewTask env todoId s).2.2 = []) := by
  refine ⟨fun hc hrc => ?_, fun hc hrc => ?_, fun hc => ?_⟩ <;>
    simp [processNewTask, executeWorkerProcess, effectWrites, hprep, hspawn, hc, *]

/-- Witness for C1 at a concrete environment: a clean exit with code 0 and
no termination request yields exactly the one `COMPLETED` write. -/
theorem c1_exit_classification_witness :
    effectWrites (processNewTask ⟨true, true, 11, false, 0⟩ 5
      ⟨Option.none, false, Option.none⟩).2.2 = [StatusWrite.completed 5] :=
  (c1_exit_classification ⟨true, true, 11, false, 0⟩ 5
    ⟨Option.none, false, Option.none⟩ rfl rfl).1 rfl rfl

/-- C2: `terminate_current_worker` sets the termination-requested flag
strictly before sending the OS signal, and in every interleaving where the
guard observed the worker still running — the cancellation was requested
during execution, including an exit landing between the flag write and the
signal — the final outcome is classified supervisor-terminated, never a
crash. -/
theorem c2_terminate_race :
    (∀ (k : Nat) (rc : Int), 1 ≤ k → k ≤ 3 →
      (raceRun (List.insertIdx k RaceInstr.workerExit terminateProgram)).flag = true ∧
      classifyOutcome
        (raceRun (List.insertIdx k RaceInstr.workerExit terminateProgram)).flag rc
        = ExitClass.terminated) ∧
    terminateProgram.indexOf RaceInstr.setFlag <
      terminateProgram.indexOf RaceInstr.sendSignal := by
  refine ⟨?_, by decide⟩
  intro k rc h1 h3
  interval_cases k <;> exact ⟨rfl, rfl⟩

/-- Witness for C2: the worker exits exactly between the flag write and the
signal; the outcome is still supervisor-terminated. -/
theorem c2_terminate_race_witness :
    classifyOutcome
      (raceRun (List.insertIdx 2 RaceInstr.workerExit terminateProgram)).flag 1
      = ExitClass.terminated :=
  (c2_terminate_race.1 2 1 (by decide) (by decide)).2

/-- C4: the polling loop never terminates because of a single task's
failure — for any per-iteration outcomes (claim raising, no row, or
processing raising) every iteration completes without propagating, sleeps
the default 7-second interval, and the loop reaches all its iterations. -/
theorem c4_loop_resilience (envs : Nat → PollEnv) (fuel : Nat) :
    (pollingRun pollingDefaultInterval envs fuel).length = fuel ∧
    ∀ it ∈ pollingRun pollingDefaultInterval envs fuel,
      it.raised = false ∧ it.slept = 7 := by
  induction fuel with
  | zero => exact ⟨rfl, fun it h => absurd h (List.not_mem_nil it)⟩
  | succ n ih =>
    refine ⟨by simp [pollingRun, ih.1], ?_⟩
    intro it h
    rcases List.mem_cons.mp h with h | h
    · subst h
      rcases hc : (envs n).claimResult with e | r
      · simp [pollingIteration, hc, pollingDefaultInterval]
      · rcases r with _ | row
        · simp [pollingIteration, hc, pollingDefaultInterval]
        · rcases hp : (envs n).processResult row with e | u <;>
            simp [pollingIteration, hc, hp, pollingDefaultInterval]
    · exact ih.2 it h

/-- Witness for C4 at a concrete environment where both the claim and the
processing raise: the iteration still does not raise and sleeps 7s. -/
theorem c4_loop_resilience_witness :
    (pollingIteration pollingDefaultInterval
      ⟨Except.error (), fun _ => Except.error ()⟩).raised = false ∧
    (pollingIteration pollingDefaultInterval
      ⟨Except.error (), fun _ => Except.error ()⟩).slept = 7 :=
  (c4_loop_resilience (fun _ => ⟨Except.error (), fun _ => Except.error ()⟩) 1).2
    _ (List.mem_singleton.mpr rfl)

/-- C8: backend reads through `_async_retry` make at most 3 attempts; the
delay slept before retry attempt `i` (`i = 1, 2`) is
`base_delay · 2^(i-1) + jitter_i` with `base_delay = 0.8 = 4/5`; and when
all three attempts fail the helper gives up and returns nothing instead of
retrying further. -/
theorem c8_retry_backoff (fn : Nat → Except Unit Unit) (jit : Nat → ℚ) :
    retryDefaultBase = 4 / 5 ∧
    (asyncRetryRun fn jit retryDefaultRetries retryDefaultBase).2.2 ≤ 3 ∧
    (fn 1 = .error () →
      (asyncRetryRun fn jit retryDefaultRetries retryDefaultBase).2.1.get? 0 =
        some (retryDefaultBase * 2 ^ (0 : Nat) + jit 1)) ∧
    (fn 1 = .error () → fn 2 = .error () →
      (asyncRetryRun fn jit retryDefaultRetries retryDefaultBase).2.1.get? 1 =
        some (retryDefaultBase * 2 ^ (1 : Nat) + jit 2)) ∧
    (fn 1 = .error () → fn 2 = .error () → fn 3 = .error () →
      (asyncRetryRun fn jit retryDefaultRetries retryDefaultBase).1 = Option.none ∧
      (asyncRetryRun fn jit retryDefaultRetries retryDefaultBase).2.2 = 3) := by
  refine ⟨rfl, ?_, fun h1 => ?_, fun h1 h2 => ?_, fun h1 h2 h3 => ?_⟩
  · rcases h1 : fn 1 with e | v
    · rcases h2 : fn 2 with e2 | v2
      · rcases h3 : fn 3 with e3 | v3 <;>
          simp [asyncRetryRun, asyncRetryGo, retryDefaultRetries, h1, h2, h3]
      · simp [asyncRetryRun, asyncRetryGo, retryDefaultRetries, h1, h2]
    · simp [asyncRetryRun, asyncRetryGo, retryDefaultRetries, h1]
  · simp [asyncRetryRun, asyncRetryGo, retryDefaultRetries, h1]
  · simp [asyncRetryRun, asyncRetryGo, retryDefaultRetries, h1, h2]
  · simp [asyncRetryRun, asyncRetryGo, retryDefaultRetries, h1, h2, h3]

/-- Witness for C8: with every attempt failing and zero jitter, the retry
gives up with no result after 3 calls. -/
theorem c8_retry_backoff_witness :
    (asyncRetryRun (fun _ => (Except.error () : Except Unit Unit)) (fun _ => (0 : ℚ))
      retryDefaultRetries retryDefaultBase).1 = Option.none ∧
    (asyncRetryRun (fun _ => (Except.error () : Except Unit Unit)) (fun _ => (0 : ℚ))
      retryDefaultRetries retryDefaultBase).2.2 = 3 :=
  (c8_retry_backoff (fun _ => (Except.error () : Except Unit Unit)) (fun _ => (0 : ℚ))).2.2.2.2
    rfl rfl rfl

/-- C9: a failed or unavailable status read never triggers termination —
the watchdog tick terminates exactly on a successfully read `CANCELLED` or
`FB_REQUESTED` status; a raising read is logged and the loop continues; a
missing status just continues; the cadence is 5 seconds; and a backend
whose every read attempt raises surfaces as `None` out of
`fetch_task_status`, which again does not terminate. -/
theorem c9_watchdog_read_safety :
    (∀ read : Except Unit (Option String),
      ((watchCancelTick read).terminated = true ↔
        (read = .ok (some "CANCELLED") ∨ read = .ok (some "FB_REQUESTED")))) ∧
    (∀ e : Unit, watchCancelTick (.error e) = ⟨false, true, true⟩) ∧
    watchCancelTick (.ok Option.none) = ⟨false, true, false⟩ ∧
    watchInterval = 5 ∧
    (∀ (calls : Nat → Except Unit (Option (Option String))) (jit : Nat → ℚ),
      (∀ a, calls a = .error ()) →
      fetchTaskStatus calls jit = Option.none ∧
      (watchCancelTick (.ok (fetchTaskStatus calls jit))).terminated = false ∧
      (watchCancelTick (.ok (fetchTaskStatus calls jit))).continues = true) := by
  refine ⟨?_, fun e => rfl, rfl, rfl, ?_⟩
  · intro read
    rcases read with e | s
    · simp [watchCancelTick]
    · rcases s with _ | st
      · simp [watchCancelTick]
      · by_cases h : st = "CANCELLED" ∨ st = "FB_REQUESTED"
        · simp only [watchCancelTick, if_pos h, Except.ok.injEq, Option.some.injEq]
          exact iff_of_true trivial h
        · simp only [watchCancelTick, if_neg h, Except.ok.injEq, Option.some.injEq]
          exact iff_of_false (by simp) h
  · intro calls jit hall
    have hfetch : fetchTaskStatus calls jit = Option.none := by
      simp [fetchTaskStatus, asyncRetryRun, asyncRetryGo, retryDefaultRetries,
        hall 1, hall 2, hall 3]
    exact ⟨hfetch, by rw [hfetch]; rfl, by rw [hfetch]; rfl⟩

/-- Witness for C9: a backend that raises on every attempt yields no status
and the tick does not terminate the worker. -/
theorem c9_watchdog_read_safety_witness :
    fetchTaskStatus (fun _ => Except.error ()) (fun _ => (0 : ℚ)) = Option.none ∧
    (watchCancelTick (.ok (fetchTaskStatus (fun _ => Except.error ())
      (fun _ => (0 : ℚ))))).terminated = false ∧
    (watchCancelTick (.ok (fetchTaskStatus (fun _ => Except.error ())
      (fun _ => (0 : ℚ))))).continues = true :=
  c9_watchdog_read_safety.2.2.2.2 (fun _ => Except.error ()) (fun _ => (0 : ℚ))
    (fun _ => rfl)

/-- C7: round-trip of form-data wrapping — wrapping any form-data mapping
`M` under a non-empty form identifier `F` and looking `F` back up returns
exactly `M`; with no form identifier set, the wrapped form data is `M`
itself; and every successful `convert_crew_output` result's wrapped
component is exactly this wrapping of its pure component. -/
theorem c7_form_wrap_roundtrip :
    (∀ (M : PyDict) (F : String), F ≠ "" →
      pyDictGet (wrapFormData M (some F)) (PyVal.str F) = some (PyVal.dict M)) ∧
    (∀ M : PyDict, wrapFormData M Option.none = M) ∧
    (∀ (text : String) (formId : Option String) (formTypes : Option PyVal)
        (r : CrewOutput), convertCrewOutput text formId formTypes = .ok r →
      r.wrappedFormData = wrapFormData r.pureFormData formId) := by
  refine ⟨?_, fun M => rfl, ?_⟩
  · intro M F hF
    simp [wrapFormData, hF, pyDictGet, pyBeq, List.find?]
  · intro text formId formTypes r h
    unfold convertCrewOutput at h
    rcases hg : parseJsonGuard text with e | v <;> rw [hg] at h
    · cases h
    · rcases he : extractFieldKeys formTypes with e2 | ks <;> rw [he] at h
      · cases h
      · cases h
        rfl

/-- Witness for C7 at a concrete mapping and form id. -/
theorem c7_form_wrap_roundtrip_witness :
    pyDictGet (wrapFormData [(PyVal.str "x", PyVal.str "y")] (some "f1"))
      (PyVal.str "f1") = some (PyVal.dict [(PyVal.str "x", PyVal.str "y")]) :=
  c7_form_wrap_roundtrip.1 [(PyVal.str "x", PyVal.str "y")] "f1" (by decide)

/-- C6: when strict parsing of the (repaired) text fails and the text
contains a close-brace/newline/open-brace boundary, the guard returns the
shallow merge of the independently parsed fragments; in particular
`{"a": 1}\n{"b": 2}` parses to `{"a": 1, "b": 2}`, a duplicate key is won
by the later fragment, and a fragment that fails to parse is skipped
rather than failing the whole parse. -/
theorem c6_multi_object_merge :
    (∀ t : String,
      pyJsonLoads (repairBacktickValueLiterals t) = .error () →
      hasMultiObjectBoundary (repairBacktickValueLiterals t) = true →
      parseJsonGuard t =
        .ok (.dict (parseMultipleJsonObjects (repairBacktickValueLiterals t)))) ∧
    parseJsonGuard "\x7b\"a\": 1\x7d\n\x7b\"b\": 2\x7d" =
      .ok (.dict [(.str "a", .int 1), (.str "b", .int 2)]) ∧
    parseJsonGuard "\x7b\"a\": 1\x7d\n\x7b\"a\": 2\x7d" =
      .ok (.dict [(.str "a", .int 2)]) ∧
    parseJsonGuard "\x7b\"a\": 1\x7d\n\x7bbad\x7d" =
      .ok (.dict [(.str "a", .int 1)]) := by
  refine ⟨?_, rfl, rfl, rfl⟩
  intro t h1 h2
  simp [parseJsonGuard, h1, h2]

/-- Witness for C6: the two-object example satisfies the hypotheses and the
guard indeed returns the merge of its fragments. -/
theorem c6_multi_object_merge_witness :
    parseJsonGuard "\x7b\"a\": 1\x7d\n\x7b\"b\": 2\x7d" =
      .ok (.dict (parseMultipleJsonObjects
        (repairBacktickValueLiterals "\x7b\"a\": 1\x7d\n\x7b\"b\": 2\x7d"))) :=
  c6_multi_object_merge.1 "\x7b\"a\": 1\x7d\n\x7b\"b\": 2\x7d" rfl rfl

/-- C5 counterexample: on the claimed input — the commentary line
`here is the answer` followed by an object whose form-data value is a
two-line backtick block — the parser does **not** succeed: `_parse_json_guard`
performs no fenced-block or trailing-balanced-object isolation (the
`_RE_CODE_BLOCK` regex of `src/utils.py:8` is never applied), so the
leading commentary makes strict JSON, the multi-object path and the literal
parser all fail, and a typed parse failure is raised instead of the claimed
success. -/
theorem c5_counterexample :
    parseJsonGuard
      "here is the answer\n\x7b\"status\": \"ok\", \"폼_데이터\": `line one\nline two`\x7d"
      = .error () ∧
    convertCrewOutput
      "here is the answer\n\x7b\"status\": \"ok\", \"폼_데이터\": `line one\nline two`\x7d"
      Option.none Option.none = .error () :=
  ⟨rfl, rfl⟩

/-- C5 amended: the backtick-block repair itself works — on the claimed
input *without* the leading commentary line (the trailing object alone),
the parser folds the backtick block into an escaped JSON string and yields
`pureFormData = {"content": "line one\nline two"}`; with the commentary
line present the parser instead surfaces a typed parse failure, since no
trailing-object isolation is implemented. -/
theorem c5_backtick_repair_amended :
    convertCrewOutput
      "\x7b\"status\": \"ok\", \"폼_데이터\": `line one\nline two`\x7d"
      Option.none Option.none =
      .ok ⟨[(.str "content", .str "line one\nline two")],
           [(.str "content", .str "line one\nline two")],
           [(.str "status", .str "ok")], [], []⟩ ∧
    parseJsonGuard
      "here is the answer\n\x7b\"status\": \"ok\", \"폼_데이터\": `line one\nline two`\x7d"
      = .error () :=
  ⟨rfl, rfl⟩

/-- C3 counterexample: the input `{"result": "not json"}` has a `"result"`
value that fails every parse step, yet `convert_crew_output` returns a
*success* whose components are all empty — the empty dict is silently
substituted (`src/utils.py:125-127`) rather than a typed parse failure
being surfaced, contradicting the claim. -/
theorem c3_counterexample :
    parseJsonGuard "not json" = .error () ∧
    convertCrewOutput "\x7b\"result\": \"not json\"\x7d" Option.none Option.none =
      .ok ⟨[], [], [], [], []⟩ :=
  ⟨rfl, rfl⟩

/-- C3 amended: when the *top-level* text fails strict parsing, the
multi-object path is not applicable and the literal parser also fails, the
parse guard raises a typed failure and `convert_crew_output` propagates it
to the caller; but when only the string under the wrapper key `"result"`
fails to parse, the parser silently substitutes an empty mapping and
returns success with empty data. -/
theorem c3_parse_failure_amended :
    (∀ (t : String) (fid : Option String) (ft : Option PyVal),
      pyJsonLoads (repairBacktickValueLiterals t) = .error () →
      hasMultiObjectBoundary (repairBacktickValueLiterals t) = false →
      pyLiteralEval (repairBacktickValueLiterals t) = .error () →
      parseJsonGuard t = .error () ∧ convertCrewOutput t fid ft = .error ()) ∧
    convertCrewOutput "\x7b\"result\": \"not json\"\x7d" Option.none Option.none =
      .ok ⟨[], [], [], [], []⟩ := by
  refine ⟨?_, rfl⟩
  intro t fid ft h1 h2 h3
  have hg : parseJsonGuard t = .error () := by
    simp [parseJsonGuard, h1, h2, h3]
  exact ⟨hg, by simp [convertCrewOutput, hg]⟩

/-- Witness for the amended C3: the top-level input `not json` satisfies
all three failure hypotheses, and both the guard and the converter raise. -/
theorem c3_parse_failure_amended_witness :
    parseJsonGuard "not json" = .error () ∧
    convertCrewOutput "not json" Option.none Option.none = .error () :=
  c3_parse_failure_amended.1 "not json" Option.none Option.none rfl rfl rfl

end CrewAction
